import Mathlib

/-!
Verification development for the Notipus webhook verification and enrichment
pipeline.  The repository ships the test-suite for this subsystem together
with the workspace signal handler; the service implementations
(`DatabaseLookupService`, `EventProcessor`, the webhook view) live outside
the packaged sources, so they are modelled here from the specification
(sections 3, 4.2, 4.3, 4.4, 6) and checked against the behaviour the tests
pin down.
-/

/-- Modelled from the spec: a JSON-serializable value as stored in a
flattened webhook record (string, number, list of strings, flat string
object, or null).  Numeric amounts are modelled as rationals. -/
inductive Val where
  | s (x : String)
  | n (q : Rat)
  | arr (xs : List String)
  | obj (fields : List (String × String))
  | null
  deriving DecidableEq

/-- Maps an optional input onto a stored value, storing null when absent. -/
def optVal (f : α → Val) : Option α → Val
  | none => Val.null
  | some a => f a

/-- Modelled from the spec: severity enum of a RichNotification
(info / success / warning / error). -/
inductive NotificationSeverity where
  | info
  | success
  | warning
  | error
  deriving DecidableEq

/-- Serialized form of a severity: its lowercase string value. -/
def severityStr : NotificationSeverity → String
  | .info => "info"
  | .success => "success"
  | .warning => "warning"
  | .error => "error"

/-- Modelled from the spec: the notification type enum (only the variants
the tests exercise are needed). -/
inductive NotificationType where
  | payment_success
  | payment_failure
  | trial_ending
  deriving DecidableEq

/-- Modelled from the spec: optional customer enrichment section of a
RichNotification. -/
structure CustomerInfo where
  email : Option String := none
  name : Option String := none
  company_name : Option String := none
  tenure_display : Option String := none
  ltv_display : Option String := none
  orders_count : Option Nat := none
  total_spent : Option Rat := none
  status_flags : Option (List String) := none
  deriving DecidableEq

/-- Modelled from the spec: optional company enrichment section. -/
structure CompanyInfo where
  name : Option String := none
  domain : Option String := none
  industry : Option String := none
  logo_url : Option String := none
  linkedin_url : Option String := none
  deriving DecidableEq

/-- Modelled from the spec: optional insight enrichment section. -/
structure InsightInfo where
  icon : Option String := none
  text : Option String := none
  deriving DecidableEq

/-- Modelled from the spec: optional payment enrichment section. -/
structure PaymentInfo where
  amount : Option Rat := none
  currency : Option String := none
  interval : Option String := none
  plan_name : Option String := none
  subscription_id : Option String := none
  payment_method : Option String := none
  card_last4 : Option String := none
  deriving DecidableEq

/-- Modelled from the spec: the enriched, display-ready event.  All nested
sections are optional; absence means the corresponding flattened fields are
omitted entirely. -/
structure RichNotification where
  type : NotificationType
  severity : NotificationSeverity
  headline : String
  headline_icon : String
  provider : String
  provider_display : String
  customer : Option CustomerInfo := none
  company : Option CompanyInfo := none
  insight : Option InsightInfo := none
  payment : Option PaymentInfo := none
  deriving DecidableEq

/-- Modelled from the spec: the inbound event data dictionary; every field
may be absent. -/
structure EventData where
  type : Option String := none
  provider : Option String := none
  external_id : Option String := none
  customer_id : Option String := none
  amount : Option Rat := none
  currency : Option String := none
  status : Option String := none
  metadata : Option (List (String × String)) := none
  deriving DecidableEq

/-- A field is present when it is bound to a non-empty string (the store's
hard precondition reads the field and requires it truthy). -/
def present : Option String → Bool
  | none => false
  | some s => !(s == "")

/-- Modelled from the spec: the current time, carrying the pieces the store
derives from it — the numeric epoch timestamp, the timestamp token used in
webhook keys, and the calendar-day string used in activity-index keys. -/
structure Timestamp where
  epoch : Rat
  token : String
  dateStr : String
  deriving DecidableEq

/-- Modelled from the spec: the keyed store service; its only configuration
is the TTL in seconds. -/
structure DatabaseLookupService where
  ttl_seconds : Nat
  deriving DecidableEq

/-- Modelled from the spec: the service constructor, taking the TTL in days
with default 7 and storing it as seconds. -/
def DatabaseLookupService.init (ttl_days : Nat := 7) : DatabaseLookupService :=
  DatabaseLookupService.mk (60 * 60 * 24 * ttl_days)

/-- Modelled from the spec: webhook record key construction,
a pure function of category, token and workspace id with the workspace id
defaulting to the literal "global"; renders as
webhook:WORKSPACE:CATEGORY:TOKEN. -/
def get_webhook_key (event_type timestamp : String)
    (workspace_id : String := "global") : String :=
  "webhook:" ++ workspace_id ++ ":" ++ event_type ++ ":" ++ timestamp

/-- Modelled from the spec: activity index key construction; renders as
webhook_activity:WORKSPACE:YYYY-MM-DD with the workspace id defaulting to
the literal "global". -/
def get_activity_key (date_str : String)
    (workspace_id : String := "global") : String :=
  "webhook_activity:" ++ workspace_id ++ ":" ++ date_str

/-- Structured cache keys: every read and write is namespaced by workspace
id; `renderKey` gives the string form used by the underlying cache. -/
inductive CacheKey where
  | webhook (workspace_id category token : String)
  | activity (workspace_id date_str : String)
  deriving DecidableEq

/-- The string form of a cache key, as built by the key-construction
functions. -/
def renderKey : CacheKey → String
  | .webhook ws cat tok => get_webhook_key cat tok ws
  | .activity ws d => get_activity_key d ws

/-- A cache entry is either a serialized webhook record or an activity
index (an ordered list of record keys). -/
inductive CacheVal where
  | record (fields : List (String × Val))
  | index (keys : List CacheKey)
  deriving DecidableEq

/-- The cache state: most-recent-write-first association list. -/
abbrev Store := List (CacheKey × CacheVal)

/-- One performed cache write: key, value and TTL seconds. -/
abbrev SetCall := CacheKey × CacheVal × Nat

/-- Writing to the cache shadows any earlier value at the same key. -/
def cacheSet (st : Store) (k : CacheKey) (v : CacheVal) : Store :=
  (k, v) :: st

/-- Reading the cache returns the most recent value at the key. -/
def cacheGet (st : Store) (k : CacheKey) : Option CacheVal :=
  List.lookup k st

/-- Reading an activity index, defaulting to the empty list when the key is
missing (read-modify-write starts from the empty list). -/
def readIdx (st : Store) (k : CacheKey) : List CacheKey :=
  match cacheGet st k with
  | some (.index ks) => ks
  | _ => []

/-- Modelled from the spec: the record category used in the webhook key,
the provider when present and non-empty, else the event type. -/
def categoryOf (ev : EventData) : String :=
  match ev.provider with
  | some p => if p == "" then ev.type.getD "unknown" else p
  | none => ev.type.getD "unknown"

/-- Modelled from the spec: the flattened, JSON-serializable projection of
event plus enrichment.  Core event fields, workspace id and timestamp come
first; each optional notification section contributes its group of keys
only when the section is present. -/
def flattenRecord (ev : EventData) (n : RichNotification)
    (workspace_id : String) (now : Timestamp) : List (String × Val) :=
  [("provider", optVal Val.s ev.provider),
   ("external_id", optVal Val.s ev.external_id),
   ("customer_id", optVal Val.s ev.customer_id),
   ("amount", optVal Val.n ev.amount),
   ("currency", optVal Val.s ev.currency),
   ("status", optVal Val.s ev.status),
   ("metadata", optVal Val.obj ev.metadata),
   ("workspace_id", Val.s workspace_id),
   ("timestamp", Val.n now.epoch),
   ("headline", Val.s n.headline),
   ("headline_icon", Val.s n.headline_icon),
   ("severity", Val.s (severityStr n.severity))]
  ++ (match n.company with
      | none => []
      | some c =>
        [("company_name", optVal Val.s c.name),
         ("company_logo_url", optVal Val.s c.logo_url),
         ("company_domain", optVal Val.s c.domain)])
  ++ (match n.customer with
      | none => []
      | some c =>
        [("customer_email", optVal Val.s c.email),
         ("customer_name", optVal Val.s c.name),
         ("customer_ltv", optVal Val.s c.ltv_display),
         ("customer_tenure", optVal Val.s c.tenure_display),
         ("customer_status_flags", optVal Val.arr c.status_flags)])
  ++ (match n.insight with
      | none => []
      | some i =>
        [("insight_text", optVal Val.s i.text),
         ("insight_icon", optVal Val.s i.icon)])
  ++ (match n.payment with
      | none => []
      | some p =>
        [("plan_name", optVal Val.s p.plan_name),
         ("payment_method", optVal Val.s p.payment_method),
         ("card_last4", optVal Val.s p.card_last4)])

/-- Modelled from the spec: `store_enriched_record`.  Checks the hard
precondition before any I/O, then writes the flattened record under the
webhook key and appends that key to the workspace-and-day activity index
(read existing list, default empty, append, write back), both with the
configured TTL.  The `oracle` models the fallible cache backend: `oracle i`
says whether the i-th write succeeds; a failed write raises, the exception
is caught, and the call reports false.  Returns the success flag, the
resulting cache state, and the performed writes in order. -/
def store_enriched_record (svc : DatabaseLookupService) (ev : EventData)
    (n : RichNotification) (now : Timestamp) (oracle : Nat → Bool)
    (st : Store) (workspace_id : String := "global") :
    Bool × Store × List SetCall :=
  if present ev.provider && present ev.customer_id then
    let record := flattenRecord ev n workspace_id now
    let wkey : CacheKey := .webhook workspace_id (categoryOf ev) now.token
    if oracle 0 then
      let st1 := cacheSet st wkey (.record record)
      let akey : CacheKey := .activity workspace_id now.dateStr
      let keys := readIdx st1 akey ++ [wkey]
      if oracle 1 then
        (true, cacheSet st1 akey (.index keys),
         [(wkey, .record record, svc.ttl_seconds),
          (akey, .index keys, svc.ttl_seconds)])
      else
        (false, st1, [(wkey, .record record, svc.ttl_seconds)])
    else
      (false, st, [])
  else
    (false, st, [])

/-- Modelled from the spec: `get_recent_webhook_activity`.  For each of the
given calendar days, read the workspace's activity index, resolve each
listed key to its stored record and skip keys whose record is gone; unknown
workspaces yield the empty list.  The caller supplies the day strings for
the last `days` days (calendar arithmetic is an external collaborator). -/
def get_recent_webhook_activity (st : Store) (workspace_id : String)
    (dates : List String) : List (List (String × Val)) :=
  dates.foldr
    (fun d acc =>
      (readIdx st (.activity workspace_id d)).filterMap
        (fun k =>
          match cacheGet st k with
          | some (.record r) => some r
          | _ => none) ++ acc)
    []

/-- Modelled from the spec: a workspace's connection to a provider, holding
its webhook secret and the nullable verification timestamp (times are epoch
seconds). -/
structure Integration where
  integration_type : String
  webhook_secret : String
  is_active : Bool
  webhook_verified_at : Option Nat := none
  deriving DecidableEq

/-- Derived property: an integration is webhook-verified when the timestamp
is non-null. -/
def Integration.is_webhook_verified (i : Integration) : Bool :=
  i.webhook_verified_at.isSome

/-- Modelled from the spec: the verification stamper — set
`webhook_verified_at` to the current time only if it is currently null;
never clears the field. -/
def stampIfUnset (now : Nat) (i : Integration) : Integration :=
  match i.webhook_verified_at with
  | none => Integration.mk i.integration_type i.webhook_secret i.is_active (some now)
  | some _ => i

/-- Modelled from the spec: the Event Processor's handling of one inbound
webhook against its integration (section 4.2).  An invalid signature is
terminal: client error 400, verification state untouched.  A valid
signature stamps `webhook_verified_at` if unset and always answers 200 —
also for provider pings (null parse) and for storage failures, which never
fail the response.  Returns the HTTP status and the updated integration. -/
def process_webhook (verifier_valid : Bool) (parse_is_ping : Bool)
    (store_ok : Bool) (now : Nat) (i : Integration) : Nat × Integration :=
  if verifier_valid then
    let stamped := stampIfUnset now i
    let _ := parse_is_ping
    let _ := store_ok
    (200, stamped)
  else
    (400, i)

/-- Modelled from the spec: the Event Processor's storage step — delegate
to the keyed store with the workspace id defaulting to the sentinel
"global" scope when no workspace is resolvable. -/
def store_enriched_record_via_processor (svc : DatabaseLookupService)
    (ev : EventData) (n : RichNotification) (now : Timestamp)
    (oracle : Nat → Bool) (st : Store) (workspace : Option String) :
    Bool × Store × List SetCall :=
  match workspace with
  | some uuid => store_enriched_record svc ev n now oracle st uuid
  | none => store_enriched_record svc ev n now oracle st "global"

/-- State of the core app's persistent records: the saved workspaces and
the workspaces that own a NotificationSettings record (one entry per
settings row, newest first). -/
structure CoreState where
  workspaces : List String
  notification_settings : List String
  deriving DecidableEq

/-- The post-save signal handler from `app/core/signals.py`: create
notification settings when (and only when) a new workspace was created. -/
def create_workspace_notification_settings (created : Bool)
    (wsInstance : String) (st : CoreState) : CoreState :=
  if created then
    CoreState.mk st.workspaces (wsInstance :: st.notification_settings)
  else
    st

/-- Modelled from the spec: the framework's save-and-signal dispatch —
saving a workspace inserts it when new and then synchronously fires the
post-save handler with the created flag, all in one transition. -/
def workspace_save (w : String) (st : CoreState) : CoreState :=
  if st.workspaces.contains w then
    create_workspace_notification_settings false w st
  else
    create_workspace_notification_settings true w
      (CoreState.mk (w :: st.workspaces) st.notification_settings)

/-- Cache states reachable from the empty cache through storage calls. -/
inductive Reachable : Store → Prop
  | empty : Reachable []
  | step (svc : DatabaseLookupService) (ev : EventData)
      (n : RichNotification) (now : Timestamp) (oracle : Nat → Bool)
      (ws : String) (st : Store) :
      Reachable st →
      Reachable (store_enriched_record svc ev n now oracle st ws).2.1

/-- Invariant: every key listed in a workspace's activity index is a
webhook record key of that same workspace. -/
def IndexKeysOwn (st : Store) : Prop :=
  ∀ ws d keys, cacheGet st (.activity ws d) = some (.index keys) →
    ∀ k ∈ keys, ∃ c tk, k = CacheKey.webhook ws c tk

/-- Invariant: every record stored under a workspace's webhook key carries
that workspace id in its workspace_id field. -/
def RecordsOwn (st : Store) : Prop :=
  ∀ ws c tk r, cacheGet st (.webhook ws c tk) = some (.record r) →
    r.lookup "workspace_id" = some (Val.s ws)

/-- The workspace-isolation invariant of the cache. -/
def StoreInv (st : Store) : Prop := IndexKeysOwn st ∧ RecordsOwn st

/-- Values used by the concrete witness scenarios: the sample event of the
test-suite. -/
def sampleEvent : EventData :=
  EventData.mk (some "payment_success") (some "stripe") (some "pi_test123")
    (some "cus_test456") (some 299) (some "USD") (some "succeeded")
    (some [("plan_name", "Pro Plan"), ("subscription_id", "sub_test789")])

/-- The sample enriched notification of the test-suite. -/
def sampleNotification : RichNotification :=
  RichNotification.mk NotificationType.payment_success
    NotificationSeverity.success "$299.00 from Acme Corp" "money" "stripe"
    "Stripe"
    (some (CustomerInfo.mk (some "billing@acme.com") (some "John Doe")
      (some "Acme Corp") (some "Since Mar 2024") (some "$2.5k") (some 5)
      (some 2500) (some ["vip"])))
    (some (CompanyInfo.mk (some "Acme Corporation") (some "acme.com")
      (some "Technology") (some "https://logo.clearbit.com/acme.com")
      (some "https://linkedin.com/company/acme")))
    (some (InsightInfo.mk (some "celebration")
      (some "First payment - Welcome aboard!")))
    (some (PaymentInfo.mk (some 299) (some "USD") (some "monthly")
      (some "Pro Plan") (some "sub_test789") (some "visa") (some "4242")))

/-- A sample current time. -/
def sampleNow : Timestamp :=
  Timestamp.mk 1750000000 "20260220_120000_000000" "2026-02-20"

/-- C1. Verification stamping is idempotent per secret lifetime: when
`webhook_verified_at` is null, a successfully-validated webhook sets it to
the (non-null) current time; when it is already set, any further
successfully-validated webhook leaves it exactly equal to its prior
value. -/
theorem C1_verification_stamp_idempotent (i : Integration)
    (now t : Nat) (ping ok : Bool) :
    (i.webhook_verified_at = none →
      (process_webhook true ping ok now i).2.webhook_verified_at
        = some now) ∧
    (i.webhook_verified_at = some t →
      ∀ now2 ping2 ok2,
        (process_webhook true ping2 ok2 now2 i).2.webhook_verified_at
          = some t) := by
  constructor
  · intro h
    simp [process_webhook, stampIfUnset, h]
  · intro h now2 ping2 ok2
    simp [process_webhook, stampIfUnset, h]

/-- Witness for C1 at a concrete integration: the first valid webhook
stamps the time, and with a prior stamp the time is preserved. -/
theorem C1_verification_stamp_idempotent_witness :
    ((process_webhook true false true 1111
        (Integration.mk "stripe_customer" "whsec_test_secret_123" true
          none)).2.webhook_verified_at = some 1111) ∧
    ((process_webhook true false true 2222
        (Integration.mk "stripe_customer" "whsec_test_secret_123" true
          (some 1111))).2.webhook_verified_at = some 1111) := by
  refine ⟨?_, ?_⟩
  · exact (C1_verification_stamp_idempotent
      (Integration.mk "stripe_customer" "whsec_test_secret_123" true none)
      1111 0 false true).1 rfl
  · exact (C1_verification_stamp_idempotent
      (Integration.mk "stripe_customer" "whsec_test_secret_123" true
        (some 1111)) 0 1111 false true).2 rfl 2222 false true

/-- C2. An invalid-signature webhook is side-effect free on verification
state: it answers 400 and leaves the integration — in particular
`webhook_verified_at`, which stays null if it was null — untouched. -/
theorem C2_failed_validation_no_side_effect (i : Integration)
    (now : Nat) (ping ok : Bool) :
    (process_webhook false ping ok now i).1 = 400 ∧
    (process_webhook false ping ok now i).2 = i ∧
    (process_webhook false ping ok now i).2.webhook_verified_at
      = i.webhook_verified_at := by
  refine ⟨rfl, rfl, rfl⟩

/-- C9. The store's TTL equals days times 24 times 3600 seconds: 7 days by
default, the constructor's `ttl_days` otherwise (14 gives 1209600). -/
theorem C9_ttl_seconds (d : Nat) :
    DatabaseLookupService.init.ttl_seconds = 7 * 24 * 3600 ∧
    (DatabaseLookupService.init d).ttl_seconds = d * 24 * 3600 ∧
    (DatabaseLookupService.init 14).ttl_seconds = 1209600 := by
  refine ⟨rfl, ?_, rfl⟩
  simp [DatabaseLookupService.init]
  ring

/-- C10. Saving a new workspace creates its default notification-settings
record in the same transition, and a save of an already-existing workspace
creates none. -/
theorem C10_workspace_settings_on_create (w : String) (st : CoreState) :
    (st.workspaces.contains w = false →
      (workspace_save w st).workspaces.contains w = true ∧
      (workspace_save w st).notification_settings
        = w :: st.notification_settings) ∧
    (st.workspaces.contains w = true →
      (workspace_save w st).notification_settings
        = st.notification_settings ∧
      (workspace_save w st).workspaces = st.workspaces) := by
  constructor
  · intro h
    have h2 : w ∉ st.workspaces := by simpa using h
    simp [workspace_save, create_workspace_notification_settings, h2]
  · intro h
    have h2 : w ∈ st.workspaces := by simpa using h
    simp [workspace_save, create_workspace_notification_settings, h2]

/-- Witness for C10 at concrete states: creating workspace w1 from the
empty state creates its settings row; re-saving it does not add another. -/
theorem C10_workspace_settings_on_create_witness :
    ((workspace_save "w1" (CoreState.mk [] [])).notification_settings
      = ["w1"]) ∧
    ((workspace_save "w1"
        (CoreState.mk ["w1"] ["w1"])).notification_settings = ["w1"]) := by
  refine ⟨?_, ?_⟩
  · exact ((C10_workspace_settings_on_create "w1"
      (CoreState.mk [] [])).1 (by decide)).2
  · exact ((C10_workspace_settings_on_create "w1"
      (CoreState.mk ["w1"] ["w1"])).2 (by decide)).1

/-- The flattened record always carries the workspace id it was stored
under. -/
theorem lookup_flatten_workspace_id (ev : EventData) (n : RichNotification)
    (ws : String) (now : Timestamp) :
    (flattenRecord ev n ws now).lookup "workspace_id" = some (Val.s ws) := by
  simp [flattenRecord, List.lookup]

/-- The webhook key always contains its workspace id as a segment. -/
theorem webhook_key_contains_workspace (cat tok ws : String) :
    ∃ a b, renderKey (CacheKey.webhook ws cat tok) = a ++ ws ++ b :=
  ⟨"webhook:", ":" ++ cat ++ ":" ++ tok, by
    simp [renderKey, get_webhook_key, String.append_assoc]⟩

/-- C3. When the provider field or the customer id field is absent or
empty, `store_enriched_record` returns false and performs no write: the
cache state is unchanged and no cache set call occurs, the precondition
being checked before any I/O. -/
theorem C3_missing_fields_no_write (svc : DatabaseLookupService)
    (ev : EventData) (n : RichNotification) (now : Timestamp)
    (oracle : Nat → Bool) (st : Store) (ws : String)
    (h : present ev.provider = false ∨ present ev.customer_id = false) :
    store_enriched_record svc ev n now oracle st ws = (false, st, []) := by
  rcases h with h | h <;> simp [store_enriched_record, h]

/-- Witness for C3: an event with the provider field absent is rejected
with no write. -/
theorem C3_missing_fields_no_write_witness :
    store_enriched_record DatabaseLookupService.init
      (EventData.mk (some "payment_success") none none (some "cus_123")
        none none none none)
      sampleNotification sampleNow (fun _ => true) [] "ws-uuid-test-1234"
      = (false, [], []) :=
  C3_missing_fields_no_write DatabaseLookupService.init
    (EventData.mk (some "payment_success") none none (some "cus_123")
      none none none none)
    sampleNotification sampleNow (fun _ => true) [] "ws-uuid-test-1234"
    (Or.inl rfl)

/-- C4. For every event with non-empty provider and customer id and every
notification, a successful `store_enriched_record` returns true and its
first write stores, under a key containing the workspace id, the flattened
record whose core fields, workspace id, headline and lowercase severity
each equal the corresponding input. -/
theorem C4_store_success (svc : DatabaseLookupService) (ev : EventData)
    (n : RichNotification) (now : Timestamp) (oracle : Nat → Bool)
    (st : Store) (ws p cid : String)
    (hp : ev.provider = some p) (hp2 : p ≠ "")
    (hc : ev.customer_id = some cid) (hc2 : cid ≠ "")
    (h0 : oracle 0 = true) (h1 : oracle 1 = true) :
    (store_enriched_record svc ev n now oracle st ws).1 = true ∧
    (store_enriched_record svc ev n now oracle st ws).2.2.head? = some
      (CacheKey.webhook ws (categoryOf ev) now.token,
       CacheVal.record (flattenRecord ev n ws now), svc.ttl_seconds) ∧
    (∃ a b, renderKey (CacheKey.webhook ws (categoryOf ev) now.token)
        = a ++ ws ++ b) ∧
    (flattenRecord ev n ws now).lookup "provider" = some (Val.s p) ∧
    (flattenRecord ev n ws now).lookup "external_id"
      = some (optVal Val.s ev.external_id) ∧
    (flattenRecord ev n ws now).lookup "customer_id" = some (Val.s cid) ∧
    (flattenRecord ev n ws now).lookup "amount"
      = some (optVal Val.n ev.amount) ∧
    (flattenRecord ev n ws now).lookup "currency"
      = some (optVal Val.s ev.currency) ∧
    (flattenRecord ev n ws now).lookup "workspace_id"
      = some (Val.s ws) ∧
    (flattenRecord ev n ws now).lookup "headline"
      = some (Val.s n.headline) ∧
    (flattenRecord ev n ws now).lookup "severity"
      = some (Val.s (severityStr n.severity)) := by
  have hpres : present ev.provider = true := by
    simp [present, hp]
    exact hp2
  have hcres : present ev.customer_id = true := by
    simp [present, hc]
    exact hc2
  refine ⟨?_, ?_, ?_, ?_, ?_, ?_, ?_, ?_, ?_, ?_, ?_⟩
  · simp [store_enriched_record, hpres, hcres, h0, h1]
  · simp [store_enriched_record, hpres, hcres, h0, h1]
  · exact webhook_key_contains_workspace (categoryOf ev) now.token ws
  · simp [flattenRecord, List.lookup, hp, optVal]
  · simp [flattenRecord, List.lookup]
  · simp [flattenRecord, List.lookup, hc, optVal]
  · simp [flattenRecord, List.lookup]
  · simp [flattenRecord, List.lookup]
  · exact lookup_flatten_workspace_id ev n ws now
  · simp [flattenRecord, List.lookup]
  · simp [flattenRecord, List.lookup]

/-- Witness for C4 on the test-suite's sample event, notification and
workspace. -/
theorem C4_store_success_witness :
    (store_enriched_record DatabaseLookupService.init sampleEvent
      sampleNotification sampleNow (fun _ => true) []
      "ws-uuid-test-1234").1 = true ∧
    (flattenRecord sampleEvent sampleNotification "ws-uuid-test-1234"
      sampleNow).lookup "provider" = some (Val.s "stripe") ∧
    (flattenRecord sampleEvent sampleNotification "ws-uuid-test-1234"
      sampleNow).lookup "customer_id" = some (Val.s "cus_test456") ∧
    (flattenRecord sampleEvent sampleNotification "ws-uuid-test-1234"
      sampleNow).lookup "severity" = some (Val.s "success") := by
  have h := C4_store_success DatabaseLookupService.init sampleEvent
    sampleNotification sampleNow (fun _ => true) [] "ws-uuid-test-1234"
    "stripe" "cus_test456" rfl (by decide) rfl (by decide) rfl rfl
  exact ⟨h.1, h.2.2.2.1, h.2.2.2.2.2.1, h.2.2.2.2.2.2.2.2.2.2⟩

/-- C5. Optional-section flattening is all-or-nothing per section: a
company, customer, insight or payment key appears among the stored record's
keys exactly when the corresponding nested section is present in the
notification. -/
theorem C5_sections_all_or_nothing (ev : EventData) (n : RichNotification)
    (ws : String) (now : Timestamp) :
    ("company_name" ∈ (flattenRecord ev n ws now).map Prod.fst ↔
      n.company ≠ none) ∧
    ("company_logo_url" ∈ (flattenRecord ev n ws now).map Prod.fst ↔
      n.company ≠ none) ∧
    ("company_domain" ∈ (flattenRecord ev n ws now).map Prod.fst ↔
      n.company ≠ none) ∧
    ("customer_email" ∈ (flattenRecord ev n ws now).map Prod.fst ↔
      n.customer ≠ none) ∧
    ("customer_name" ∈ (flattenRecord ev n ws now).map Prod.fst ↔
      n.customer ≠ none) ∧
    ("customer_ltv" ∈ (flattenRecord ev n ws now).map Prod.fst ↔
      n.customer ≠ none) ∧
    ("customer_tenure" ∈ (flattenRecord ev n ws now).map Prod.fst ↔
      n.customer ≠ none) ∧
    ("customer_status_flags" ∈ (flattenRecord ev n ws now).map Prod.fst ↔
      n.customer ≠ none) ∧
    ("insight_text" ∈ (flattenRecord ev n ws now).map Prod.fst ↔
      n.insight ≠ none) ∧
    ("insight_icon" ∈ (flattenRecord ev n ws now).map Prod.fst ↔
      n.insight ≠ none) ∧
    ("plan_name" ∈ (flattenRecord ev n ws now).map Prod.fst ↔
      n.payment ≠ none) ∧
    ("payment_method" ∈ (flattenRecord ev n ws now).map Prod.fst ↔
      n.payment ≠ none) ∧
    ("card_last4" ∈ (flattenRecord ev n ws now).map Prod.fst ↔
      n.payment ≠ none) := by
  obtain ⟨ty, sev, hl, hi, pv, pd, cu, co, ins, pay⟩ := n
  cases cu <;> cases co <;> cases ins <;> cases pay <;>
    simp [flattenRecord]

/-- C7. A storage call with the workspace id omitted — in particular the
Event Processor's storage step with no resolvable workspace — writes the
record under a key containing the literal segment "global" and stores
"global" as the record's workspace id. -/
theorem C7_default_workspace_global (svc : DatabaseLookupService)
    (ev : EventData) (n : RichNotification) (now : Timestamp)
    (oracle : Nat → Bool) (st : Store)
    (hp : present ev.provider = true) (hc : present ev.customer_id = true)
    (h0 : oracle 0 = true) (h1 : oracle 1 = true) :
    store_enriched_record_via_processor svc ev n now oracle st none
      = store_enriched_record svc ev n now oracle st ∧
    (store_enriched_record svc ev n now oracle st).1 = true ∧
    (store_enriched_record svc ev n now oracle st).2.2.head? = some
      (CacheKey.webhook "global" (categoryOf ev) now.token,
       CacheVal.record (flattenRecord ev n "global" now),
       svc.ttl_seconds) ∧
    (∃ a b, renderKey (CacheKey.webhook "global" (categoryOf ev) now.token)
        = a ++ "global" ++ b) ∧
    (flattenRecord ev n "global" now).lookup "workspace_id"
      = some (Val.s "global") := by
  refine ⟨rfl, ?_, ?_, ?_, ?_⟩
  · simp [store_enriched_record, hp, hc, h0, h1]
  · simp [store_enriched_record, hp, hc, h0, h1]
  · exact webhook_key_contains_workspace (categoryOf ev) now.token "global"
  · exact lookup_flatten_workspace_id ev n "global" now

/-- Witness for C7 on the sample event with no resolvable workspace. -/
theorem C7_default_workspace_global_witness :
    (store_enriched_record DatabaseLookupService.init sampleEvent
      sampleNotification sampleNow (fun _ => true) []).1 = true ∧
    (flattenRecord sampleEvent sampleNotification "global"
      sampleNow).lookup "workspace_id" = some (Val.s "global") := by
  have h := C7_default_workspace_global DatabaseLookupService.init
    sampleEvent sampleNotification sampleNow (fun _ => true) []
    (by decide) (by decide) rfl rfl
  exact ⟨h.2.1, h.2.2.2.2⟩

/-- C8. Once the precondition check has passed, a raise from the cache
backend during any write step is caught and reported as a false return;
`store_enriched_record` is a total function and never raises past its
boundary. -/
theorem C8_store_exception_reports_false (svc : DatabaseLookupService)
    (ev : EventData) (n : RichNotification) (now : Timestamp)
    (oracle : Nat → Bool) (st : Store) (ws : String)
    (hp : present ev.provider = true) (hc : present ev.customer_id = true)
    (hfail : oracle 0 = false ∨ oracle 1 = false) :
    (store_enriched_record svc ev n now oracle st ws).1 = false := by
  rcases hfail with h | h
  · simp [store_enriched_record, hp, hc, h]
  · by_cases h0 : oracle 0 <;> simp [store_enriched_record, hp, hc, h, h0]

/-- Witness for C8: with a backend that raises on every write, the sample
store call reports false. -/
theorem C8_store_exception_reports_false_witness :
    (store_enriched_record DatabaseLookupService.init sampleEvent
      sampleNotification sampleNow (fun _ => false) []
      "ws-uuid-test-1234").1 = false :=
  C8_store_exception_reports_false DatabaseLookupService.init sampleEvent
    sampleNotification sampleNow (fun _ => false) [] "ws-uuid-test-1234"
    (by decide) (by decide) (Or.inl rfl)
/-- Cache reads on a freshly written state hit the new value exactly at
its key. -/
theorem cacheGet_cons (k1 : CacheKey) (v1 : CacheVal) (st : Store)
    (k : CacheKey) :
    cacheGet ((k1, v1) :: st) k
      = if k = k1 then some v1 else cacheGet st k := by
  by_cases h : k = k1
  · simp [cacheGet, List.lookup, h]
  · have hb : (k == k1) = false := by simp [h]
    rw [if_neg h]
    simp [cacheGet, List.lookup, hb]

/-- Writing a flattened record under its own workspace's webhook key
preserves the isolation invariant. -/
theorem inv_set_record (st : Store) (ws cat tok : String) (ev : EventData)
    (n : RichNotification) (now : Timestamp) (h : StoreInv st) :
    StoreInv (cacheSet st (CacheKey.webhook ws cat tok)
      (CacheVal.record (flattenRecord ev n ws now))) := by
  constructor
  · intro ws2 d2 keys2 hg k hk
    rw [cacheSet, cacheGet_cons] at hg
    simp at hg
    exact h.1 ws2 d2 keys2 hg k hk
  · intro ws2 c2 t2 r hg
    rw [cacheSet, cacheGet_cons] at hg
    by_cases he : CacheKey.webhook ws2 c2 t2 = CacheKey.webhook ws cat tok
    · rw [if_pos he] at hg
      obtain ⟨hws, hcat, htok⟩ := CacheKey.webhook.inj he
      obtain rfl := hws
      have hr : r = flattenRecord ev n ws2 now := by
        injection hg with hg2
        exact (CacheVal.record.inj hg2.symm)
      rw [hr]
      exact lookup_flatten_workspace_id ev n ws2 now
    · rw [if_neg he] at hg
      exact h.2 ws2 c2 t2 r hg

/-- Writing an activity index whose keys all belong to the index's
workspace preserves the isolation invariant. -/
theorem inv_set_index (st : Store) (ws d : String) (keys : List CacheKey)
    (hkeys : ∀ k ∈ keys, ∃ c tk, k = CacheKey.webhook ws c tk)
    (h : StoreInv st) :
    StoreInv (cacheSet st (CacheKey.activity ws d)
      (CacheVal.index keys)) := by
  constructor
  · intro ws2 d2 keys2 hg k hk
    rw [cacheSet, cacheGet_cons] at hg
    by_cases he : CacheKey.activity ws2 d2 = CacheKey.activity ws d
    · rw [if_pos he] at hg
      obtain ⟨hws, hd⟩ := CacheKey.activity.inj he
      obtain rfl := hws
      have hk2 : keys2 = keys := by
        injection hg with hg2
        exact CacheVal.index.inj hg2.symm
      subst hk2
      exact hkeys k hk
    · rw [if_neg he] at hg
      exact h.1 ws2 d2 keys2 hg k hk
  · intro ws2 c2 t2 r hg
    rw [cacheSet, cacheGet_cons] at hg
    simp at hg
    exact h.2 ws2 c2 t2 r hg

/-- Under the invariant, keys read from a workspace's activity index all
belong to that workspace. -/
theorem readIdx_own (st : Store) (ws d : String) (h : StoreInv st) :
    ∀ k ∈ readIdx st (CacheKey.activity ws d),
      ∃ c tk, k = CacheKey.webhook ws c tk := by
  intro k hk
  unfold readIdx at hk
  cases hget : cacheGet st (CacheKey.activity ws d) with
  | none => rw [hget] at hk; simp at hk
  | some v =>
    cases v with
    | record r => rw [hget] at hk; simp at hk
    | index ks =>
      rw [hget] at hk
      exact h.1 ws d ks hget k hk

/-- Every storage call, successful or not, preserves the isolation
invariant. -/
theorem store_preserves_inv (svc : DatabaseLookupService) (ev : EventData)
    (n : RichNotification) (now : Timestamp) (oracle : Nat → Bool)
    (ws : String) (st : Store) (h : StoreInv st) :
    StoreInv (store_enriched_record svc ev n now oracle st ws).2.1 := by
  unfold store_enriched_record
  by_cases hpre : (present ev.provider && present ev.customer_id) = true
  · rw [if_pos hpre]
    by_cases h0 : oracle 0 = true
    · rw [if_pos h0]
      have h1inv : StoreInv (cacheSet st
          (CacheKey.webhook ws (categoryOf ev) now.token)
          (CacheVal.record (flattenRecord ev n ws now))) :=
        inv_set_record st ws (categoryOf ev) now.token ev n now h
      by_cases h1 : oracle 1 = true
      · rw [if_pos h1]
        refine inv_set_index _ ws now.dateStr _ ?_ h1inv
        intro k hk
        rcases List.mem_append.mp hk with hk2 | hk2
        · exact readIdx_own _ ws now.dateStr h1inv k hk2
        · simp at hk2
          exact ⟨categoryOf ev, now.token, hk2⟩
      · rw [if_neg h1]
        exact h1inv
    · rw [if_neg h0]
      exact h
  · rw [if_neg hpre]
    exact h

/-- Every cache state reachable through storage calls satisfies the
isolation invariant. -/
theorem reachable_inv (st : Store) (h : Reachable st) : StoreInv st := by
  induction h with
  | empty =>
    constructor
    · intro ws d keys hg
      simp [cacheGet] at hg
    · intro ws c tk r hg
      simp [cacheGet] at hg
  | step svc ev n now oracle ws st2 _ ih =>
    exact store_preserves_inv svc ev n now oracle ws st2 ih

/-- Under the invariant, recent-activity retrieval for a workspace only
returns records carrying that workspace's id. -/
theorem get_only_own (st : Store) (ws : String) (dates : List String)
    (h : StoreInv st) :
    ∀ r ∈ get_recent_webhook_activity st ws dates,
      r.lookup "workspace_id" = some (Val.s ws) := by
  induction dates with
  | nil =>
    intro r hr
    simp [get_recent_webhook_activity] at hr
  | cons d ds ih =>
    intro r hr
    unfold get_recent_webhook_activity at hr
    rw [List.foldr_cons] at hr
    rcases List.mem_append.mp hr with hr2 | hr2
    · obtain ⟨k, hk, hf⟩ := List.mem_filterMap.mp hr2
      cases hget : cacheGet st k with
      | none => rw [hget] at hf; simp at hf
      | some v =>
        cases v with
        | index ks => rw [hget] at hf; simp at hf
        | record r2 =>
          rw [hget] at hf
          simp at hf
          rw [hf] at hget
          obtain ⟨c, tk, hk2⟩ := readIdx_own st ws d h k hk
          subst hk2
          exact h.2 ws c tk r hget
    · exact ih r hr2

/-- Activity index keys determine their workspace: equal rendered keys for
the same day force equal workspace ids. -/
theorem activity_key_inj (d A B : String)
    (h : get_activity_key d A = get_activity_key d B) : A = B := by
  have h2 := congrArg String.data h
  simp only [get_activity_key, String.data_append, List.append_assoc] at h2
  have h3 := List.append_cancel_left h2
  have h4 := List.append_cancel_right h3
  exact String.ext h4

/-- The activity key always contains its workspace id as a segment. -/
theorem activity_key_contains_workspace (d ws : String) :
    ∃ a b, renderKey (CacheKey.activity ws d) = a ++ ws ++ b :=
  ⟨"webhook_activity:", ":" ++ d, by
    simp [renderKey, get_activity_key, String.append_assoc]⟩

/-- C6. Workspace isolation for storage and retrieval: storing identical
payloads under distinct workspaces A and B writes under two distinct
activity-index keys, each containing its own workspace id, and on every
cache state reachable through storage calls, recent-activity retrieval for
A returns only records whose workspace id equals A — never one stored
under B. -/
theorem C6_workspace_isolation (svc : DatabaseLookupService)
    (ev : EventData) (n : RichNotification) (now : Timestamp)
    (oracle : Nat → Bool) (stA stB st : Store) (A B : String)
    (dates : List String) (hAB : A ≠ B)
    (hp : present ev.provider = true) (hc : present ev.customer_id = true)
    (h0 : oracle 0 = true) (h1 : oracle 1 = true)
    (hreach : Reachable st) :
    ((store_enriched_record svc ev n now oracle stA A).2.2.map Prod.fst
      = [CacheKey.webhook A (categoryOf ev) now.token,
         CacheKey.activity A now.dateStr]) ∧
    ((store_enriched_record svc ev n now oracle stB B).2.2.map Prod.fst
      = [CacheKey.webhook B (categoryOf ev) now.token,
         CacheKey.activity B now.dateStr]) ∧
    renderKey (CacheKey.activity A now.dateStr)
      ≠ renderKey (CacheKey.activity B now.dateStr) ∧
    (∃ a b, renderKey (CacheKey.activity A now.dateStr) = a ++ A ++ b) ∧
    (∃ a b, renderKey (CacheKey.activity B now.dateStr) = a ++ B ++ b) ∧
    (∀ r ∈ get_recent_webhook_activity st A dates,
      r.lookup "workspace_id" = some (Val.s A)) := by
  refine ⟨?_, ?_, ?_, ?_, ?_, ?_⟩
  · simp [store_enriched_record, hp, hc, h0, h1]
  · simp [store_enriched_record, hp, hc, h0, h1]
  · intro hk
    exact hAB (activity_key_inj now.dateStr A B hk)
  · exact activity_key_contains_workspace now.dateStr A
  · exact activity_key_contains_workspace now.dateStr B
  · exact get_only_own st A dates (reachable_inv st hreach)

/-- Witness for C6: after storing the sample payload first under workspace
ws-bbb and then under ws-aaa starting from the empty cache, the record
retrieved for ws-aaa carries workspace id ws-aaa, and the two concrete
activity keys differ. -/
theorem C6_workspace_isolation_witness :
    (flattenRecord sampleEvent sampleNotification "ws-aaa"
      sampleNow).lookup "workspace_id" = some (Val.s "ws-aaa") ∧
    renderKey (CacheKey.activity "ws-aaa" "2026-02-20")
      ≠ renderKey (CacheKey.activity "ws-bbb" "2026-02-20") := by
  have h := C6_workspace_isolation DatabaseLookupService.init sampleEvent
    sampleNotification sampleNow (fun _ => true) [] []
    ((store_enriched_record DatabaseLookupService.init sampleEvent
      sampleNotification sampleNow (fun _ => true)
      ((store_enriched_record DatabaseLookupService.init sampleEvent
        sampleNotification sampleNow (fun _ => true) [] "ws-bbb").2.1)
      "ws-aaa").2.1)
    "ws-aaa" "ws-bbb" ["2026-02-20"] (by decide) (by decide) (by decide)
    rfl rfl
    (Reachable.step DatabaseLookupService.init sampleEvent
      sampleNotification sampleNow (fun _ => true) "ws-aaa" _
      (Reachable.step DatabaseLookupService.init sampleEvent
        sampleNotification sampleNow (fun _ => true) "ws-bbb" []
        Reachable.empty))
  refine ⟨?_, h.2.2.1⟩
  exact h.2.2.2.2.2 (flattenRecord sampleEvent sampleNotification "ws-aaa"
    sampleNow) (by decide)
